import Mathlib

/-!
# Verification of `lantz/visa.py` (VISA driver layer)

Shallow embedding of the message-based VISA driver layer:

* the `VisaDriver.__new__` dispatcher that classifies a canonical resource
  name into a transport variant,
* `MessageVisaDriver.raw_recv` (positive-size read and drain mode),
* `MessageVisaDriver.read_block` (IEEE-488.2 `#`-block protocol),
* `MessageVisaDriver.initialize` / `finalize` / `is_open` lifecycle,
* `SerialVisaDriver.__init__` configuration encoding.

The underlying pyvisa `Session` is modelled as an oracle: a queue of
pre-determined responses, one per `read_raw` call.  A response shorter than
the requested count models a timeout / terminator short read, which the
Python layer treats as a normal value, not an error.  Every issued read is
recorded in a log together with the size requested and whether the
`ignore_warning(VI_SUCCESS_MAX_CNT)` context was active at that moment.
-/

namespace LantzVisa

/-- One `read_raw` call issued to the Session: the size requested and whether
`ignore_warning(VI_SUCCESS_MAX_CNT)` was active around the call. -/
structure ReadCall where
  requested : Int
  suppressed : Bool
  deriving Repr, DecidableEq

/-- The I/O state seen by a driver: the queue of responses the Session will
return to successive `read_raw` calls, and the log of calls issued so far. -/
structure IOState where
  pending : List (List Nat)
  log : List ReadCall
  deriving Repr, DecidableEq

/-- `resource.read_raw(size)`: pops the next queued response (an exhausted
oracle yields the empty byte string, i.e. a timed-out read with no data) and
records the call. -/
def readRaw (size : Int) (supp : Bool) (s : IOState) : List Nat × IOState :=
  match s.pending with
  | [] => ([], ⟨[], s.log ++ [⟨size, supp⟩]⟩)
  | b :: rest => (b, ⟨rest, s.log ++ [⟨size, supp⟩]⟩)

/-- `MessageVisaDriver.RECV_BUFFER_SIZE = 1 << 8`. -/
def RECV_BUFFER_SIZE : Nat := 256

/-- The drain loop of `MessageVisaDriver.raw_recv`: repeatedly
`read_raw(RECV_BUFFER_SIZE)`, accumulating buffers, until a read returns
fewer than `RECV_BUFFER_SIZE` bytes.  Recursion is on the response queue:
each iteration consumes one queued response, and an exhausted queue yields
an empty (hence short) read. -/
def drainLoop (supp : Bool) : List (List Nat) → List ReadCall → List Nat × IOState
  | [], log => ([], ⟨[], log ++ [⟨(RECV_BUFFER_SIZE : Int), supp⟩]⟩)
  | b :: rest, log =>
    if b.length < RECV_BUFFER_SIZE then
      (b, ⟨rest, log ++ [⟨(RECV_BUFFER_SIZE : Int), supp⟩]⟩)
    else
      let r := drainLoop supp rest (log ++ [⟨(RECV_BUFFER_SIZE : Int), supp⟩])
      (b ++ r.1, r.2)

/-- `MessageVisaDriver.raw_recv(size)`.  Python tests `if not size or size == -1`;
`size` being `None` or `0` is falsy, so absence behaves exactly like `0` and we
model the argument as an `Int` with `0` standing for absent/zero.  Drain mode
reads `RECV_BUFFER_SIZE`-byte buffers until a short read; otherwise a single
`read_raw(size)` whose result is returned as-is (a timeout may make it short). -/
def msgRawRecv (size : Int) (supp : Bool) (s : IOState) : List Nat × IOState :=
  if size = 0 ∨ size = -1 then
    drainLoop supp s.pending s.log
  else
    readRaw size supp s

/-- Python `int()` applied to a byte string of ASCII decimal digits:
`int(b'05') = 5`; an empty string or a non-digit byte raises `ValueError`
(modelled as `none`; signs and surrounding whitespace, which `int()` would
also accept, never occur in this layer's protocol). -/
def parseAsciiNat (bs : List Nat) : Option Nat :=
  match bs with
  | [] => none
  | _ =>
    bs.foldl (fun acc b =>
      match acc with
      | none => none
      | some n => if 48 ≤ b ∧ b ≤ 57 then some (n * 10 + (b - 48)) else none)
      (some 0)

/-- The ways a `read_block` call can fail: the protocol error for a header
byte other than `#` (Python `Exception('Unexpected block header: ...')`,
carrying `header[0]`), the `IndexError` raised by `header[0]` itself when the
header read returned no bytes, and the `ValueError` raised by `int()` on a
non-numeric field. -/
inductive BlockError where
  | unexpectedBlockHeader (b : Nat)
  | indexError
  | valueError
  deriving Repr, DecidableEq

/-- `MessageVisaDriver.read_block`.  The whole body executes inside
`with self.resource.ignore_warning(VI_SUCCESS_MAX_CNT)`, including the
`return self.raw_recv(length)` expression, so every read is issued with the
suppression active (`supp = true`).  Mirrors the source line by line:
read 1 header byte and require `#` (reporting `header[0]`, which raises
`IndexError` on an empty read); read 1 byte and `int()` it into `nlength`;
read `nlength` bytes and `int()` them into `length`; read and return
`length` bytes.  Note that `raw_recv(0)` would enter drain mode, exactly as
in the source. -/
def readBlock (s : IOState) : Except BlockError (List Nat) × IOState :=
  let h := msgRawRecv 1 true s
  let header := h.1
  if header ≠ [35] then
    match header.head? with
    | some b => (.error (.unexpectedBlockHeader b), h.2)
    | none => (.error .indexError, h.2)
  else
    let n := msgRawRecv 1 true h.2
    match parseAsciiNat n.1 with
    | none => (.error .valueError, n.2)
    | some nlength =>
      let l := msgRawRecv (Int.ofNat nlength) true n.2
      match parseAsciiNat l.1 with
      | none => (.error .valueError, l.2)
      | some length =>
        let p := msgRawRecv (Int.ofNat length) true l.2
        (.ok p.1, p.2)

/-! ## Dispatcher (`VisaDriver.__new__`) -/

/-- `str.startswith` on the underlying character lists. -/
def charsStartWith : List Char → List Char → Bool
  | _, [] => true
  | [], _ :: _ => false
  | c :: cs, d :: ds => c = d && charsStartWith cs ds

/-- Python `name.startswith(p)`. -/
def startswith (name p : String) : Bool :=
  charsStartWith name.toList p.toList

/-- The driver classes a dispatch can construct. -/
inductive DriverClass where
  | GPIBVisaDriver
  | SerialVisaDriver
  | TCPVisaDriver
  | USBVisaDriver
  deriving Repr, DecidableEq

/-- The object built by a successful dispatch: the chosen class, constructed
with the original `resource_name` and the caller's `*args, **kwargs`
(modelled as one opaque `opts` value, forwarded as-is). -/
structure ConstructedDriver (α : Type) where
  cls : DriverClass
  resourceName : String
  opts : α
  deriving Repr, DecidableEq

/-- `ValueError('Unknown resource type: ...')` from the dispatcher (the spec's
`UnknownResourceKind`), carrying the canonical name it could not classify. -/
inductive DispatchError where
  | unknownResourceKind (name : String)
  deriving Repr, DecidableEq

/-- `VisaDriver.__new__`: `name` is the canonical resource name resolved by
`manager.resource_info(resource_name).resource_name` (the resolution itself is
the external Session provider's `resolve_canonical_address`); the prefixes
`GPIB`, `ASRL`, `TCPIP`, `USB` are tried in the source's `if`/`elif` order and
the matching class is constructed with `resource_name` and the options
unchanged. -/
def visaDriverNew (α : Type) (name resource_name : String) (opts : α) :
    Except DispatchError (ConstructedDriver α) :=
  if startswith name "GPIB" then
    .ok ⟨.GPIBVisaDriver, resource_name, opts⟩
  else if startswith name "ASRL" then
    .ok ⟨.SerialVisaDriver, resource_name, opts⟩
  else if startswith name "TCPIP" then
    .ok ⟨.TCPVisaDriver, resource_name, opts⟩
  else if startswith name "USB" then
    .ok ⟨.USBVisaDriver, resource_name, opts⟩
  else
    .error (.unknownResourceKind name)

/-! ## Lifecycle (`initialize` / `finalize` / `is_open`)

The pyvisa resource handle is external to this repository; it is modelled
from the spec's Session capability contract: `open` yields a live handle,
`close` invalidates it.  `openCount` instruments the model, counting the
`open_resource` calls actually issued. -/

/-- An opened pyvisa resource: its session handle (`none` once closed) and
the attributes applied to it with `set_visa_attribute`. -/
structure VisaResource where
  session : Option Nat
  attrsApplied : List (String × Int)
  deriving Repr, DecidableEq

/-- The driver-visible state: `resource` is `None` until `initialize` opens
it, `_init_attributes` is the attribute dict populated at construction, and
`openCount` counts underlying `open_resource` calls. -/
structure DriverState where
  resource : Option VisaResource
  initAttributes : List (String × Int)
  openCount : Nat
  deriving Repr, DecidableEq

/-- `MessageVisaDriver.__init__`: `self.resource = None`, with the given
`_init_attributes` contents (empty for the base class, filled in by
`SerialVisaDriver.__init__`). -/
def mkMessageVisaDriver (attrs : List (String × Int)) : DriverState :=
  ⟨none, attrs, 0⟩

/-- `MessageVisaDriver.is_open`: `False` while `self.resource is None`,
otherwise `self.resource.session is not None`. -/
def is_open (d : DriverState) : Bool :=
  match d.resource with
  | none => false
  | some r => r.session.isSome

/-- `MessageVisaDriver.initialize`: when not open, `open_resource` yields a
fresh live handle and every `_init_attributes` entry is applied to it with
`set_visa_attribute`; when already open, only a diagnostic is logged and the
state is untouched. -/
def initializeDriver (d : DriverState) : DriverState :=
  if is_open d then
    d
  else
    { d with
      resource := some ⟨some (d.openCount + 1), d.initAttributes⟩,
      openCount := d.openCount + 1 }

/-- `MessageVisaDriver.finalize`: `self.resource.close()`.  When `resource`
is still `None` this is the unguarded caller error (`AttributeError` in
Python, modelled as `none`); otherwise the Session handle is invalidated. -/
def finalizeDriver (d : DriverState) : Option DriverState :=
  match d.resource with
  | none => none
  | some r => some { d with resource := some { r with session := none } }

/-! ## Serial configuration (`SerialVisaDriver.__init__`)

The lookup tables `BYTESIZE`, `PARITY`, `STOPBITS` and the `Constants`
values appear in the source only inside a commented-out block and as stale
references to the legacy pyvisa `Constants` API (at runtime the constructor
would raise `NameError`); the embedding restores them exactly as that block
defines them, with the legacy pyvisa/VISA numeric values.  Python values
flowing through `**kwargs` and the `kw` dict are modelled by `PyVal`
(numbers as rationals, so that the float key `1.5` of `STOPBITS` and
int/float equality behave as in Python). -/

/-- A Python value as it occurs in this constructor's dicts: a number, a
string, or a boolean. -/
inductive PyVal where
  | pnum (q : ℚ)
  | pstr (s : String)
  | pbool (b : Bool)
  deriving Repr, DecidableEq

/-- Python truthiness of a `PyVal` (`0`, `''` and `False` are falsy). -/
def pyTruthy : PyVal → Bool
  | .pnum q => if q = 0 then false else true
  | .pstr s => if s = "" then false else true
  | .pbool b => b

/-- `d.get(key, default)` on a string-keyed dict. -/
def dictGet (d : List (String × PyVal)) (key : String) (default : PyVal) : PyVal :=
  match d.lookup key with
  | some v => v
  | none => default

namespace Constants

/-- `VI_ASRL_PAR_NONE` -/
def ASRL_PAR_NONE : Nat := 0

/-- `VI_ASRL_PAR_ODD` -/
def ASRL_PAR_ODD : Nat := 1

/-- `VI_ASRL_PAR_EVEN` -/
def ASRL_PAR_EVEN : Nat := 2

/-- `VI_ASRL_PAR_MARK` -/
def ASRL_PAR_MARK : Nat := 3

/-- `VI_ASRL_PAR_SPACE` -/
def ASRL_PAR_SPACE : Nat := 4

/-- `VI_ASRL_STOP_ONE` -/
def ASRL_STOP_ONE : Nat := 10

/-- `VI_ASRL_STOP_ONE5` -/
def ASRL_STOP_ONE5 : Nat := 15

/-- `VI_ASRL_STOP_TWO` -/
def ASRL_STOP_TWO : Nat := 20

/-- `VI_ASRL_FLOW_NONE` -/
def ASRL_FLOW_NONE : Nat := 0

/-- `VI_ASRL_FLOW_XON_XOFF` -/
def ASRL_FLOW_XON_XOFF : Nat := 1

/-- `VI_ASRL_FLOW_RTS_CTS` -/
def ASRL_FLOW_RTS_CTS : Nat := 2

/-- `VI_ASRL_FLOW_DTR_DSR` -/
def ASRL_FLOW_DTR_DSR : Nat := 4

/-- `VI_ASRL_END_NONE` -/
def ASRL_END_NONE : Nat := 0

/-- `VI_ASRL_END_TERMCHAR` -/
def ASRL_END_TERMCHAR : Nat := 2

end Constants

/-- The module-level dict `BYTESIZE = {5: 5, 6: 6, 7: 7, 8: 8}`; a key
outside it raises `KeyError` (`none`). -/
def BYTESIZE (k : PyVal) : Option Nat :=
  if k = .pnum 5 then some 5
  else if k = .pnum 6 then some 6
  else if k = .pnum 7 then some 7
  else if k = .pnum 8 then some 8
  else none

/-- The module-level dict `PARITY` mapping parity names to
`Constants.ASRL_PAR_*`. -/
def PARITY (k : PyVal) : Option Nat :=
  if k = .pstr "none" then some Constants.ASRL_PAR_NONE
  else if k = .pstr "even" then some Constants.ASRL_PAR_EVEN
  else if k = .pstr "odd" then some Constants.ASRL_PAR_ODD
  else if k = .pstr "mark" then some Constants.ASRL_PAR_MARK
  else if k = .pstr "space" then some Constants.ASRL_PAR_SPACE
  else none

/-- The module-level dict `STOPBITS = {1: ..., 1.5: ..., 2: ...}` mapping to
`Constants.ASRL_STOP_*`. -/
def STOPBITS (k : PyVal) : Option Nat :=
  if k = .pnum 1 then some Constants.ASRL_STOP_ONE
  else if k = .pnum (3 / 2) then some Constants.ASRL_STOP_ONE5
  else if k = .pnum 2 then some Constants.ASRL_STOP_TWO
  else none

namespace SerialDefaults

/-- class attribute `SerialVisaDriver.BAUDRATE` -/
def BAUDRATE : ℚ := 9600

/-- class attribute `SerialVisaDriver.BYTESIZE` -/
def BYTESIZE : ℚ := 8

/-- class attribute `SerialVisaDriver.PARITY` -/
def PARITY : String := "none"

/-- class attribute `SerialVisaDriver.STOPBITS` -/
def STOPBITS : ℚ := 1

/-- class attribute `SerialVisaDriver.RTSCTS` -/
def RTSCTS : Bool := false

/-- class attribute `SerialVisaDriver.DSRDTR` -/
def DSRDTR : Bool := false

/-- class attribute `SerialVisaDriver.XONXOFF` -/
def XONXOFF : Bool := false

/-- class attribute `SerialVisaDriver.RECV_CHUNK` -/
def RECV_CHUNK : Int := -1

/-- class attribute `MessageVisaDriver.RECV_TERMINATION = '\n'`, modelled as
an optional character (`none` for `None`/the empty, falsy string). -/
def RECV_TERMINATION : Option Char := some (Char.ofNat 10)

end SerialDefaults

/-- The error a `SerialVisaDriver.__init__` lookup can raise: `KeyError`
from one of the three tables (the spec's `InvalidConfig`), carrying the
offending key. -/
inductive ConfigError where
  | keyError (k : PyVal)
  deriving Repr, DecidableEq

/-- The flow-control mask of `SerialVisaDriver.__init__`: starting from
`Constants.ASRL_FLOW_NONE`, OR in each flag whose kwarg (defaulting to the
class attribute, `False`) is truthy. -/
def serialFlowCntrl (kwargs : List (String × PyVal)) : Nat :=
  let flow0 := Constants.ASRL_FLOW_NONE
  let flow1 :=
    if pyTruthy (dictGet kwargs "rtscts" (.pbool SerialDefaults.RTSCTS)) then
      flow0 ||| Constants.ASRL_FLOW_RTS_CTS
    else flow0
  let flow2 :=
    if pyTruthy (dictGet kwargs "dsrdtr" (.pbool SerialDefaults.DSRDTR)) then
      flow1 ||| Constants.ASRL_FLOW_DTR_DSR
    else flow1
  let flow3 :=
    if pyTruthy (dictGet kwargs "xonxoff" (.pbool SerialDefaults.XONXOFF)) then
      flow2 ||| Constants.ASRL_FLOW_XON_XOFF
    else flow2
  flow3

/-- `SerialVisaDriver.__init__`, lines 189-211 of the source, building the
`kw` dict merged into `_init_attributes`.  `RECV_TERMINATION` and
`RECV_CHUNK` are the class attributes (overridable in subclasses; defaults
in `SerialDefaults`).  Mirrored faithfully, including that the source looks
up `'bytesize'`, `'parity'` and `'stopbits'` with `kw.get(...)` on the
partially built `kw` dict — whose keys are only the `ASRL_*` strings — and
not with `kwargs.get(...)`, so for those three the caller's value is never
consulted and the class default is always encoded. -/
def serialVisaDriverInit (kwargs : List (String × PyVal))
    (RECV_TERMINATION : Option Char) (RECV_CHUNK : Int) :
    Except ConfigError (List (String × PyVal)) :=
  let kw1 := [("ASRL_BAUD", dictGet kwargs "baudrate" (.pnum SerialDefaults.BAUDRATE))]
  let bytesizeKey := dictGet kw1 "bytesize" (.pnum SerialDefaults.BYTESIZE)
  match BYTESIZE bytesizeKey with
  | none => .error (.keyError bytesizeKey)
  | some dataBits =>
    let kw2 := kw1 ++ [("ASRL_DATA_BITS", .pnum dataBits)]
    let parityKey := dictGet kw2 "parity" (.pstr SerialDefaults.PARITY)
    match PARITY parityKey with
    | none => .error (.keyError parityKey)
    | some par =>
      let kw3 := kw2 ++ [("ASRL_PARITY", .pnum par)]
      let stopbitsKey := dictGet kw3 "stopbits" (.pnum SerialDefaults.STOPBITS)
      match STOPBITS stopbitsKey with
      | none => .error (.keyError stopbitsKey)
      | some stop =>
        let kw4 := kw3 ++ [("ASRL_STOP_BITS", .pnum stop)]
        let kw5 := kw4 ++ [("ASRL_FLOW_CNTRL", .pnum (serialFlowCntrl kwargs))]
        let kw6 :=
          match RECV_TERMINATION with
          | some c =>
            if RECV_CHUNK > 1 then
              kw5 ++ [("TERMCHAR", .pnum c.toNat), ("ASRL_END_IN", .pnum Constants.ASRL_END_TERMCHAR)]
            else
              kw5 ++ [("ASRL_END_IN", .pnum Constants.ASRL_END_NONE)]
          | none =>
            kw5 ++ [("ASRL_END_IN", .pnum Constants.ASRL_END_NONE)]
        .ok kw6

/-! ## Theorems -/

/-- Shared evaluation lemma: a `read_block` run whose header read yields `#`,
whose digit read parses to `D ≥ 1` and whose length field parses to `L ≥ 1`
issues exactly the four reads (sizes `1, 1, D, L`) and returns whatever the
payload read yielded. -/
theorem readBlock_run (d D L : Nat) (lenDigits p : List Nat) (restQ : List (List Nat))
    (hd : parseAsciiNat [d] = some D) (hD : 1 ≤ D)
    (hl : parseAsciiNat lenDigits = some L) (hL : 1 ≤ L) :
    readBlock ⟨[35] :: [d] :: lenDigits :: p :: restQ, []⟩ =
      (.ok p, ⟨restQ, [⟨1, true⟩, ⟨1, true⟩, ⟨(D : Int), true⟩, ⟨(L : Int), true⟩]⟩) := by
  have h1 : D ≠ 0 := by omega
  have h2 : L ≠ 0 := by omega
  simp [readBlock, msgRawRecv, readRaw, hd, hl, h1, h2]

/-- C2: on a byte stream `#`, an ASCII digit for `D ∈ 1..9`, `D` ASCII digits
encoding `length`, then at least `length` payload bytes with every read
returning the full requested count, `read_block()` returns exactly the
`length` payload bytes. -/
theorem read_block_returns_declared_payload (d D L : Nat)
    (lenDigits payload : List Nat) (restQ : List (List Nat))
    (hd : parseAsciiNat [d] = some D) (hD1 : 1 ≤ D) (hD9 : D ≤ 9)
    (hlen : lenDigits.length = D)
    (hl : parseAsciiNat lenDigits = some L) (hL : 1 ≤ L)
    (hpay : payload.length = L) :
    readBlock ⟨[35] :: [d] :: lenDigits :: payload :: restQ, []⟩ =
      (.ok payload, ⟨restQ, [⟨1, true⟩, ⟨1, true⟩, ⟨(D : Int), true⟩, ⟨(L : Int), true⟩]⟩) :=
  readBlock_run d D L lenDigits payload restQ hd hD1 hl hL

/-- Witness for C2: the stream `#` `2` `05` then five bytes returns exactly
those five bytes after four reads. -/
theorem read_block_returns_declared_payload_witness :
    readBlock ⟨[35] :: [50] :: [48, 53] :: [11, 22, 33, 44, 55] :: [], []⟩ =
      (.ok [11, 22, 33, 44, 55],
        ⟨[], [⟨1, true⟩, ⟨1, true⟩, ⟨((2 : Nat) : Int), true⟩, ⟨((5 : Nat) : Int), true⟩]⟩) :=
  read_block_returns_declared_payload 50 2 5 [48, 53] [11, 22, 33, 44, 55] []
    (by decide) (by decide) (by decide) (by decide) (by decide) (by decide) (by decide)

/-- C3, counterexample: on the stream `#` `1` `5` followed by only three
payload bytes (the payload read timed out short), `read_block()` returns the
3-byte payload normally, with no error, although the declared length was 5. -/
theorem read_block_short_payload_counterexample :
    (readBlock ⟨[[35], [49], [53], [10, 20, 30]], []⟩).1 = .ok [10, 20, 30] ∧
    parseAsciiNat [53] = some 5 ∧ ([10, 20, 30] : List Nat).length < 5 :=
  ⟨rfl, by decide, by decide⟩

/-- C3, amended: `read_block()` returns whatever the payload read yields,
with no length check: for any well-formed header, digit and length fields it
returns the payload read's bytes normally even when that read returned fewer
than the declared `L` bytes. -/
theorem read_block_returns_payload_unchecked (d D L : Nat)
    (lenDigits payload : List Nat) (restQ : List (List Nat))
    (hd : parseAsciiNat [d] = some D) (hD1 : 1 ≤ D) (hD9 : D ≤ 9)
    (hl : parseAsciiNat lenDigits = some L) (hL : 1 ≤ L) :
    readBlock ⟨[35] :: [d] :: lenDigits :: payload :: restQ, []⟩ =
      (.ok payload, ⟨restQ, [⟨1, true⟩, ⟨1, true⟩, ⟨(D : Int), true⟩, ⟨(L : Int), true⟩]⟩) :=
  readBlock_run d D L lenDigits payload restQ hd hD1 hl hL

/-- Witness for the amended C3: declared length 5, payload read yields only
3 bytes, returned as a normal result. -/
theorem read_block_returns_payload_unchecked_witness :
    readBlock ⟨[35] :: [49] :: [53] :: [10, 20, 30] :: [], []⟩ =
      (.ok [10, 20, 30],
        ⟨[], [⟨1, true⟩, ⟨1, true⟩, ⟨((1 : Nat) : Int), true⟩, ⟨((5 : Nat) : Int), true⟩]⟩) :=
  read_block_returns_payload_unchecked 49 1 5 [53] [10, 20, 30] []
    (by decide) (by decide) (by decide) (by decide) (by decide)

/-- C4: when the first byte of the stream is not `#`, `read_block()` fails
with the protocol error carrying that byte, and exactly one 1-byte read was
issued (the rest of the stream is untouched). -/
theorem read_block_bad_header (b : Nat) (restQ : List (List Nat)) (hb : b ≠ 35) :
    readBlock ⟨[b] :: restQ, []⟩ =
      (.error (.unexpectedBlockHeader b), ⟨restQ, [⟨1, true⟩]⟩) := by
  simp [readBlock, msgRawRecv, readRaw, hb]

/-- Witness for C4: a stream starting with `A` (65) fails with
`UnexpectedBlockHeader 65` after exactly one read. -/
theorem read_block_bad_header_witness :
    readBlock ⟨[65] :: [[1, 2], [3]], []⟩ =
      (.error (.unexpectedBlockHeader 65), ⟨[[1, 2], [3]], [⟨1, true⟩]⟩) :=
  read_block_bad_header 65 [[1, 2], [3]] (by decide)

/-- C10: when the header read returns an empty byte string (zero-length
timeout), the error branch itself indexes `header[0]`, so `read_block()`
fails with the out-of-bounds indexing error, not with
`UnexpectedBlockHeader`. -/
theorem read_block_empty_header_index_error (restQ : List (List Nat)) :
    readBlock ⟨[] :: restQ, []⟩ = (.error .indexError, ⟨restQ, [⟨1, true⟩]⟩) := by
  simp [readBlock, msgRawRecv, readRaw]

/-- Shared evaluation lemma for the drain loop: full buffers are accumulated
until the first short buffer, consuming one queued response and logging one
`RECV_BUFFER_SIZE`-byte read per iteration. -/
theorem drainLoop_concat (supp : Bool) (bufs : List (List Nat)) (lastBuf : List Nat)
    (restQ : List (List Nat)) (log : List ReadCall)
    (hfull : ∀ b ∈ bufs, b.length = RECV_BUFFER_SIZE)
    (hshort : lastBuf.length < RECV_BUFFER_SIZE) :
    drainLoop supp (bufs ++ lastBuf :: restQ) log =
      ((bufs ++ [lastBuf]).flatten,
        ⟨restQ, log ++ List.replicate (bufs.length + 1) ⟨(RECV_BUFFER_SIZE : Int), supp⟩⟩) := by
  induction bufs generalizing log with
  | nil => simp [drainLoop, hshort]
  | cons b bs ih =>
    have hb : b.length = RECV_BUFFER_SIZE := hfull b (by simp)
    have hnb : ¬ b.length < RECV_BUFFER_SIZE := by omega
    simp only [List.cons_append, drainLoop, hnb, if_false, List.append_eq]
    rw [ih _ (fun x hx => hfull x (List.mem_cons_of_mem b hx))]
    simp [List.replicate_succ, List.append_assoc]

/-- C5: drain-mode `raw_recv` (size absent/zero/`-1`) on a Session yielding
buffers `b1, ..., b(n-1)` of exactly the buffer size (256 bytes) and a first
short buffer `bn` performs exactly `n` underlying reads and returns the
concatenation `b1 ++ ... ++ bn` in order. -/
theorem drain_recv_reads_until_short (size : Int) (supp : Bool)
    (hsize : size = 0 ∨ size = -1)
    (bufs : List (List Nat)) (lastBuf : List Nat) (restQ : List (List Nat))
    (hfull : ∀ b ∈ bufs, b.length = RECV_BUFFER_SIZE)
    (hshort : lastBuf.length < RECV_BUFFER_SIZE) :
    msgRawRecv size supp ⟨bufs ++ lastBuf :: restQ, []⟩ =
      ((bufs ++ [lastBuf]).flatten,
        ⟨restQ, List.replicate (bufs.length + 1) ⟨(RECV_BUFFER_SIZE : Int), supp⟩⟩) := by
  unfold msgRawRecv
  rw [if_pos hsize]
  simpa using drainLoop_concat supp bufs lastBuf restQ [] hfull hshort

/-- Witness for C5: buffers of sizes 256, 256, 100 give the 612-byte
concatenation after exactly 3 reads, and a first buffer of 10 bytes gives
exactly those 10 bytes after exactly 1 read. -/
theorem drain_recv_reads_until_short_witness :
    (msgRawRecv 0 false ⟨[List.replicate 256 7, List.replicate 256 8, List.replicate 100 9], []⟩ =
      (([List.replicate 256 7, List.replicate 256 8] ++ [List.replicate 100 9]).flatten,
        ⟨[], List.replicate (2 + 1) ⟨(RECV_BUFFER_SIZE : Int), false⟩⟩)) ∧
    (([List.replicate 256 7, List.replicate 256 8] ++ [List.replicate (100 : Nat) 9]).flatten.length = 612) ∧
    (msgRawRecv (-1) false ⟨[List.replicate 10 1], []⟩ =
      (([] ++ [List.replicate 10 1]).flatten,
        ⟨[], List.replicate (0 + 1) ⟨(RECV_BUFFER_SIZE : Int), false⟩⟩)) := by
  refine ⟨?_, ?_, ?_⟩
  · exact drain_recv_reads_until_short 0 false (Or.inl rfl)
      [List.replicate 256 7, List.replicate 256 8] (List.replicate 100 9) []
      (by intro b hb
          simp only [List.mem_cons, List.not_mem_nil, or_false] at hb
          rcases hb with h | h <;> rw [h, List.length_replicate] <;> rfl)
      (by rw [List.length_replicate]; norm_num [RECV_BUFFER_SIZE])
  · simp only [List.length_flatten, List.map_append, List.map_cons, List.map_nil,
      List.length_replicate]
    norm_num
  · exact drain_recv_reads_until_short (-1) false (Or.inr rfl)
      [] (List.replicate 10 1) []
      (by intro b hb; cases hb)
      (by rw [List.length_replicate]; norm_num [RECV_BUFFER_SIZE])

/-- Helper: a `read_raw` issued while suppression is active keeps every log
entry marked suppressed. -/
theorem readRaw_log_all (size : Int) (s : IOState)
    (h : s.log.all (fun c => c.suppressed) = true) :
    ((readRaw size true s).2.log).all (fun c => c.suppressed) = true := by
  obtain ⟨pending, log⟩ := s
  cases pending <;> simp_all [readRaw]

/-- Helper: every read issued by a drain loop running under suppression is
logged as suppressed. -/
theorem drainLoop_log_all (pending : List (List Nat)) (log : List ReadCall)
    (h : log.all (fun c => c.suppressed) = true) :
    ((drainLoop true pending log).2.log).all (fun c => c.suppressed) = true := by
  induction pending generalizing log with
  | nil => simp [drainLoop, h]
  | cons b rest ih =>
    by_cases hb : b.length < RECV_BUFFER_SIZE
    · simp [drainLoop, hb, h]
    · simp only [drainLoop, hb, if_false]
      exact ih _ (by simp [h])

/-- Helper: `raw_recv` under suppression preserves an all-suppressed log. -/
theorem msgRawRecv_log_all (size : Int) (s : IOState)
    (h : s.log.all (fun c => c.suppressed) = true) :
    ((msgRawRecv size true s).2.log).all (fun c => c.suppressed) = true := by
  unfold msgRawRecv
  split
  · exact drainLoop_log_all s.pending s.log h
  · exact readRaw_log_all size s h

/-- C8, amended: the `ignore_warning(VI_SUCCESS_MAX_CNT)` block of
`read_block()` encloses the `return self.raw_recv(length)` expression, so
every read the call issues — header, digit count, length field AND the final
payload read — happens with the benign-status suppression active. -/
theorem read_block_suppression_spans_payload_read (pending : List (List Nat)) :
    ((readBlock ⟨pending, []⟩).2.log).all (fun c => c.suppressed) = true := by
  unfold readBlock
  dsimp only
  repeat' first
  | rfl
  | split
  | apply msgRawRecv_log_all

/-- C8, counterexample to the claim as stated: in a complete `read_block()`
run the final (payload) read — the last log entry, of the declared size 3 —
is itself issued with the suppression active, contradicting that the
suppression scope excludes the payload read. -/
theorem read_block_payload_read_suppressed_counterexample :
    (readBlock ⟨[[35], [49], [51], [7, 8, 9]], []⟩).2.log =
      [⟨1, true⟩, ⟨1, true⟩, ⟨1, true⟩, ⟨3, true⟩] ∧
    ((readBlock ⟨[[35], [49], [51], [7, 8, 9]], []⟩).2.log.getLast?).map
      (fun c => c.suppressed) = some true :=
  ⟨rfl, rfl⟩

/-- C9: for a freshly constructed driver `is_open()` is false; after
`initialize()` it is true; after `finalize()` it is false; a second
`initialize()` changes nothing (same state, no new attribute applications)
and the total number of underlying `open_resource` calls stays 1; the one
open applied exactly the `_init_attributes` entries to the fresh handle. -/
theorem message_driver_lifecycle (attrs : List (String × Int)) :
    is_open (mkMessageVisaDriver attrs) = false ∧
    is_open (initializeDriver (mkMessageVisaDriver attrs)) = true ∧
    (finalizeDriver (initializeDriver (mkMessageVisaDriver attrs))).map is_open = some false ∧
    initializeDriver (initializeDriver (mkMessageVisaDriver attrs)) =
      initializeDriver (mkMessageVisaDriver attrs) ∧
    (initializeDriver (initializeDriver (mkMessageVisaDriver attrs))).openCount = 1 ∧
    (initializeDriver (mkMessageVisaDriver attrs)).resource =
      some ⟨some 1, attrs⟩ :=
  ⟨rfl, rfl, rfl, rfl, rfl, rfl⟩

/-- C1: the dispatcher tests the canonical name against `GPIB`, `ASRL`,
`TCPIP`, `USB` in that fixed order, constructs the matching driver class
with the resource name and the options forwarded unchanged, and fails with
`UnknownResourceKind` (constructing nothing) when no prefix matches. -/
theorem dispatcher_classifies (α : Type) (name rn : String) (opts : α) :
    (startswith name "GPIB" = true →
      visaDriverNew α name rn opts = .ok ⟨.GPIBVisaDriver, rn, opts⟩) ∧
    (startswith name "GPIB" = false → startswith name "ASRL" = true →
      visaDriverNew α name rn opts = .ok ⟨.SerialVisaDriver, rn, opts⟩) ∧
    (startswith name "GPIB" = false → startswith name "ASRL" = false →
      startswith name "TCPIP" = true →
      visaDriverNew α name rn opts = .ok ⟨.TCPVisaDriver, rn, opts⟩) ∧
    (startswith name "GPIB" = false → startswith name "ASRL" = false →
      startswith name "TCPIP" = false → startswith name "USB" = true →
      visaDriverNew α name rn opts = .ok ⟨.USBVisaDriver, rn, opts⟩) ∧
    (startswith name "GPIB" = false → startswith name "ASRL" = false →
      startswith name "TCPIP" = false → startswith name "USB" = false →
      visaDriverNew α name rn opts = .error (.unknownResourceKind name)) := by
  refine ⟨?_, ?_, ?_, ?_, ?_⟩ <;> intros <;> simp_all [visaDriverNew]

/-- Witness for C1: one concrete canonical name per branch. -/
theorem dispatcher_classifies_witness :
    (visaDriverNew Nat "GPIB0::1::INSTR" "dev" 7 = .ok ⟨.GPIBVisaDriver, "dev", 7⟩) ∧
    (visaDriverNew Nat "ASRL1::INSTR" "dev" 7 = .ok ⟨.SerialVisaDriver, "dev", 7⟩) ∧
    (visaDriverNew Nat "TCPIP0::localhost::INSTR" "dev" 7 = .ok ⟨.TCPVisaDriver, "dev", 7⟩) ∧
    (visaDriverNew Nat "USB0::1::2::INSTR" "dev" 7 = .ok ⟨.USBVisaDriver, "dev", 7⟩) ∧
    (visaDriverNew Nat "COM1" "dev" 7 = .error (.unknownResourceKind "COM1")) :=
  ⟨(dispatcher_classifies Nat "GPIB0::1::INSTR" "dev" 7).1 (by decide),
   (dispatcher_classifies Nat "ASRL1::INSTR" "dev" 7).2.1 (by decide) (by decide),
   (dispatcher_classifies Nat "TCPIP0::localhost::INSTR" "dev" 7).2.2.1 (by decide) (by decide) (by decide),
   (dispatcher_classifies Nat "USB0::1::2::INSTR" "dev" 7).2.2.2.1 (by decide) (by decide) (by decide) (by decide),
   (dispatcher_classifies Nat "COM1" "dev" 7).2.2.2.2 (by decide) (by decide) (by decide) (by decide)⟩

/-- C6: evaluation of `SerialVisaDriver.__init__` at the claim's failing
input.  With caller kwargs `bytesize=9`, `parity='foo'`, `stopbits=3` the
construction does NOT fail with `InvalidConfig`: the three lookups read the
partially built `kw` dict instead of `kwargs`, so the caller's values are
silently ignored and the class defaults (8 data bits, parity none, 1 stop
bit) are encoded. -/
theorem serial_config_overrides_ignored :
    serialVisaDriverInit
        [("bytesize", .pnum 9), ("parity", .pstr "foo"), ("stopbits", .pnum 3)]
        SerialDefaults.RECV_TERMINATION SerialDefaults.RECV_CHUNK =
      .ok [("ASRL_BAUD", .pnum SerialDefaults.BAUDRATE),
           ("ASRL_DATA_BITS", .pnum ((8 : Nat) : ℚ)),
           ("ASRL_PARITY", .pnum ((Constants.ASRL_PAR_NONE : Nat) : ℚ)),
           ("ASRL_STOP_BITS", .pnum ((Constants.ASRL_STOP_ONE : Nat) : ℚ)),
           ("ASRL_FLOW_CNTRL", .pnum ((Constants.ASRL_FLOW_NONE : Nat) : ℚ)),
           ("ASRL_END_IN", .pnum ((Constants.ASRL_END_NONE : Nat) : ℚ))] := by
  rfl

/-- C7, counterexample to the claim as stated: under the default settings
(`RECV_TERMINATION = '\n'`, `RECV_CHUNK = -1`) the built config contains NO
`TERMCHAR` entry and sets `ASRL_END_IN` to `ASRL_END_NONE` (no automatic
termination), because the source's condition tests `RECV_CHUNK > 1` — and
the serial default `RECV_CHUNK` is `-1` — not the drain-mode buffer size
(256). -/
theorem serial_termchar_defaults_counterexample :
    (serialVisaDriverInit [] SerialDefaults.RECV_TERMINATION
        SerialDefaults.RECV_CHUNK).toOption.map
        (fun kw => (kw.lookup "TERMCHAR", kw.lookup "ASRL_END_IN")) =
      some (none, some (.pnum ((Constants.ASRL_END_NONE : Nat) : ℚ))) ∧
    Constants.ASRL_END_NONE ≠ Constants.ASRL_END_TERMCHAR :=
  ⟨rfl, by decide⟩

/-- C7, amended: the built TransportConfig sets the termchar attribute and
the terminate-on-termchar end-in mode exactly when a receive-termination
character is configured AND the receive chunk size `RECV_CHUNK` is greater
than 1; in every other case (including the serial defaults, where
`RECV_CHUNK = -1`) no `TERMCHAR` entry is made and the end-in mode is
`ASRL_END_NONE`. -/
theorem serial_termchar_condition (kwargs : List (String × PyVal))
    (RECV_TERMINATION : Option Char) (RECV_CHUNK : Int) :
    ∃ kw, serialVisaDriverInit kwargs RECV_TERMINATION RECV_CHUNK = .ok kw ∧
      (∀ c, RECV_TERMINATION = some c → RECV_CHUNK > 1 →
        kw.lookup "TERMCHAR" = some (.pnum ((c.toNat : Nat) : ℚ)) ∧
        kw.lookup "ASRL_END_IN" = some (.pnum ((Constants.ASRL_END_TERMCHAR : Nat) : ℚ))) ∧
      ((RECV_TERMINATION = none ∨ ¬ RECV_CHUNK > 1) →
        kw.lookup "TERMCHAR" = none ∧
        kw.lookup "ASRL_END_IN" = some (.pnum ((Constants.ASRL_END_NONE : Nat) : ℚ))) := by
  cases hterm : RECV_TERMINATION with
  | none =>
    refine ⟨_, rfl, ?_, ?_⟩
    · intro c hc
      simp at hc
    · intro hcond
      constructor <;> rfl
  | some c =>
    have hEq : serialVisaDriverInit kwargs (some c) RECV_CHUNK =
        .ok (if RECV_CHUNK > 1 then
          [("ASRL_BAUD", dictGet kwargs "baudrate" (.pnum SerialDefaults.BAUDRATE)),
           ("ASRL_DATA_BITS", .pnum ((8 : Nat) : ℚ)),
           ("ASRL_PARITY", .pnum ((Constants.ASRL_PAR_NONE : Nat) : ℚ)),
           ("ASRL_STOP_BITS", .pnum ((Constants.ASRL_STOP_ONE : Nat) : ℚ)),
           ("ASRL_FLOW_CNTRL", .pnum ((serialFlowCntrl kwargs : Nat) : ℚ)),
           ("TERMCHAR", .pnum ((c.toNat : Nat) : ℚ)),
           ("ASRL_END_IN", .pnum ((Constants.ASRL_END_TERMCHAR : Nat) : ℚ))]
        else
          [("ASRL_BAUD", dictGet kwargs "baudrate" (.pnum SerialDefaults.BAUDRATE)),
           ("ASRL_DATA_BITS", .pnum ((8 : Nat) : ℚ)),
           ("ASRL_PARITY", .pnum ((Constants.ASRL_PAR_NONE : Nat) : ℚ)),
           ("ASRL_STOP_BITS", .pnum ((Constants.ASRL_STOP_ONE : Nat) : ℚ)),
           ("ASRL_FLOW_CNTRL", .pnum ((serialFlowCntrl kwargs : Nat) : ℚ)),
           ("ASRL_END_IN", .pnum ((Constants.ASRL_END_NONE : Nat) : ℚ))]) := by
      rfl
    by_cases hchunk : RECV_CHUNK > 1
    · rw [hEq, if_pos hchunk]
      refine ⟨_, rfl, ?_, ?_⟩
      · intro c' hc' hk
        cases hc'
        constructor <;> rfl
      · intro hcond
        rcases hcond with h | h
        · cases h
        · exact absurd hchunk h
    · rw [hEq, if_neg hchunk]
      refine ⟨_, rfl, ?_, ?_⟩
      · intro c' hc' hk
        exact absurd hk hchunk
      · intro hcond
        constructor <;> rfl

/-- Witness for the amended C7: with a `'\n'` termination character and
`RECV_CHUNK = 2 > 1`, the built config sets `TERMCHAR` to 10 and the end-in
mode to `ASRL_END_TERMCHAR`. -/
theorem serial_termchar_condition_witness :
    ∃ kw, serialVisaDriverInit [] (some (Char.ofNat 10)) 2 = .ok kw ∧
      kw.lookup "TERMCHAR" = some (.pnum (((Char.ofNat 10).toNat : Nat) : ℚ)) ∧
      kw.lookup "ASRL_END_IN" = some (.pnum ((Constants.ASRL_END_TERMCHAR : Nat) : ℚ)) := by
  obtain ⟨kw, hok, hyes, hno⟩ := serial_termchar_condition [] (some (Char.ofNat 10)) 2
  obtain ⟨h1, h2⟩ := hyes (Char.ofNat 10) rfl (by decide)
  exact ⟨kw, hok, h1, h2⟩

end LantzVisa
